import Mathlib

/-!
Verification of the threshold-crossing notifier with externally persisted
cooldown timer (`threshold_mode.py`).

The shallow embedding models one invocation of `threshold_mode` as a pure
function from a configuration and an environment (current time, stored timer
object, outcomes of the external I/O calls) to an outcome (the returned
status dict, or an uncaught exception) together with the observable side
effects (whether the metric source was queried, which notifications were
published, which timer uploads were attempted, and the final stored timer
object).
-/

namespace TF2

/-- Configuration constants read by `threshold_mode` (from `config.Config` and
`constants`): player-count threshold, cooldown timer in minutes, server
address, and the notification subject marker (EMAIL_SUBJECT_PREFIX in
`constants.py`). -/
structure Config where
  PLAYER_COUNT_THRESHOLD : Nat
  THRESHOLD_TIMER_MINUTES : Nat
  SERVER_IP : String
  emailSubjectPre : String
deriving Repr, DecidableEq

/-- Result of a successful metric query (`SourceServer.getPlayers` plus
`srv.info.get("name")`): the player count, the raw player tuples of which
index 1 is the name, and the server label. -/
structure Metric where
  playerCount : Nat
  players : List (Nat × String)
  serverName : String
deriving Repr, DecidableEq

/-- Which call site published a notification: the threshold alert of the
notify path, or the error report published by `handle_error`. -/
inductive EmailKind where
  | thresholdAlert : EmailKind
  | errorReport : EmailKind
deriving Repr, DecidableEq

/-- One notification published to the channel. -/
structure Email where
  kind : EmailKind
  subject : String
  message : String
deriving Repr, DecidableEq

/-- The dict returned by `threshold_mode`: a status code and a body. -/
structure ReturnMessage where
  statusCode : Nat
  body : String
deriving Repr, DecidableEq

/-- Outcome of one invocation: a returned `ReturnMessage`, or an exception
that escapes `threshold_mode` uncaught. -/
inductive Outcome where
  | ret : ReturnMessage → Outcome
  | fault : String → Outcome
deriving Repr, DecidableEq

/-- Observable side effects of one invocation. `stored` is the content of the
timer object in the store after the invocation (`none` when absent). -/
structure Effects where
  metricQueried : Bool
  sentEmails : List Email
  uploadAttempts : List Int
  stored : Option String
deriving Repr, DecidableEq

/-- The environment of one invocation: the captured current time (integer
seconds), the stored timer object before the invocation (`none` models the
NoSuchKey condition), an optional injected fault for the download, and the
outcomes the external services would give to the metric query, the timer
upload, and the notification delivery. -/
structure Env where
  now : Int
  readFault : Option String
  stored : Option String
  metric : Except String Metric
  uploadResult : Except String Unit
  sendResult : Except String Unit
deriving Repr

/-- Modelled from the spec: `utility.convert_minutes_to_seconds` (utility.py
is not under src/); the spec says the cooldown is configured in minutes and
converted to seconds internally. -/
def convert_minutes_to_seconds (m : Nat) : Nat :=
  m * 60

/-- Numeric value of a list of decimal digit characters. -/
def digitsVal (cs : List Char) : Nat :=
  cs.foldl (fun a c => 10 * a + (c.toNat - 48)) 0

/-- Surrounding whitespace of a character list removed. -/
def stripChars (cs : List Char) : List Char :=
  ((cs.dropWhile Char.isWhitespace).reverse.dropWhile Char.isWhitespace).reverse

/-- Semantics of Python `int(s)` on the timer-file line: strip surrounding
whitespace, allow one optional sign, then require a nonempty run of decimal
digits; anything else raises ValueError, modelled as `none`. -/
def pythonInt (s : String) : Option Int :=
  match stripChars s.toList with
  | [] => none
  | c :: rest =>
    if c = '-' then
      if rest.isEmpty then none
      else if rest.all Char.isDigit then some (-(digitsVal rest : Int)) else none
    else if c = '+' then
      if rest.isEmpty then none
      else if rest.all Char.isDigit then some (digitsVal rest : Int) else none
    else if (c :: rest).all Char.isDigit then some (digitsVal (c :: rest) : Int)
    else none

/-- Modelled from the spec: the human-readable rendering of a timestamp used
in messages (`TimeType.current_time_human_readable`; time_type.py is not
under src/). The exact ctime format is immaterial to the claims; it is
modelled as an injective rendering of the integer timestamp. -/
def current_time_human_readable (t : Int) : String :=
  "<time " ++ toString t ++ ">"

/-- SUCCESS_STATUS_CODE from `constants.py` (not under src/); the spec fixes
200 for the OK family. -/
def SUCCESS_STATUS_CODE : Nat := 200

/-- Modelled from the spec: the ERROR-family status code returned by
`utility.handle_error` (utility.py is not under src/); the spec says the
ERROR family is 4xx/5xx, modelled as 500. -/
def ERROR_STATUS_CODE : Nat := 500

/-- Modelled from the spec: `utility.handle_error` (utility.py is not under
src/). Per the spec, an engine-level failure is converted into an ERROR
DecisionResult carrying a descriptive message, and a best-effort error
notification is published. -/
def handle_error (msg : String) : ReturnMessage × Email :=
  (⟨ERROR_STATUS_CODE, msg⟩,
   { kind := EmailKind.errorReport, subject := "Error", message := msg })

/-- Modelled from the spec: the body of the OK result returned by
`timer.handle_timer_file_not_found` (timer.py is not under src/); the spec
only requires a message indicating initialization. -/
def timer_init_body : String :=
  "Timer file was not found. Created a new one and uploaded it."

/-- Modelled from the spec: `timer.handle_timer_file_not_found` (timer.py is
not under src/). Per the spec, the first-run condition initializes the timer
to `now` by writing a new record and returns OK with a message indicating
initialization; the metric source is not queried on this path. -/
def handle_timer_file_not_found (now : Int) : Outcome × Effects :=
  (Outcome.ret ⟨SUCCESS_STATUS_CODE, timer_init_body⟩,
   { metricQueried := false
     sentEmails := []
     uploadAttempts := [now]
     stored := some (toString now) })

/-- The names of the current players with anonymous (empty) entries filtered
out, as computed by the loop over `current_players`. -/
def current_player_names (players : List (Nat × String)) : List String :=
  (players.filter (fun p => !(p.2 == ""))).map (fun p => p.2)

/-- Body of the below-threshold OK result. -/
def belowThresholdBody (cfg : Config) (pc : Nat) : String :=
  "There are " ++ toString pc ++ " players, but the threshold is " ++
    toString cfg.PLAYER_COUNT_THRESHOLD ++ ", so don\x27t send an email"

/-- Subject of the threshold alert notification. -/
def alertSubject (cfg : Config) : String :=
  cfg.emailSubjectPre ++ "Player count has reached the threshold"

/-- Message of the threshold alert notification. -/
def alertBody (cfg : Config) (m : Metric) (newTarget : Int) : String :=
  "Players count is " ++ toString m.playerCount ++ " in server: " ++
    m.serverName ++ ", IP: " ++ cfg.SERVER_IP ++
    ". The next check will happen after " ++
    current_time_human_readable newTarget ++ "\n"

/-- One invocation of `threshold_mode` (threshold_mode.py), embedding its
control flow: download the timer object (NoSuchKey goes to the first-run
handler, any other exception to `handle_error`); parse the line with `int`
(an invalid line raises an uncaught ValueError); a parsed value of 0 is
reported as an empty timer file; compare `now` with the target time and
return the not-yet-due OK result when the target has not passed; otherwise
query the metric source (an exception there is uncaught); branch on the
player count against the threshold; on the notify path compute the new
target time, attempt the upload (an upload exception goes to
`handle_error`, before any notification is sent), then send the alert (a
delivery exception is uncaught) and return OK. -/
def threshold_mode (cfg : Config) (env : Env) : Outcome × Effects :=
  match env.readFault with
  | some e =>
    let em := handle_error ("Caught exception when downloading timer file from S3. Exception: " ++ e)
    (Outcome.ret em.1,
     { metricQueried := false, sentEmails := [em.2], uploadAttempts := [],
       stored := env.stored })
  | none =>
  match env.stored with
  | none => handle_timer_file_not_found env.now
  | some content =>
  match pythonInt content with
  | none =>
    (Outcome.fault ("ValueError: invalid literal for int() with base 10: " ++ content),
     { metricQueried := false, sentEmails := [], uploadAttempts := [],
       stored := some content })
  | some target_time =>
  if target_time = 0 then
    let em := handle_error ("Timer file was empty")
    (Outcome.ret em.1,
     { metricQueried := false, sentEmails := [em.2], uploadAttempts := [],
       stored := some content })
  else if env.now < target_time then
    (Outcome.ret ⟨SUCCESS_STATUS_CODE, "We haven\x27t passed the target time yet. Don\x27t do anything."⟩,
     { metricQueried := false, sentEmails := [], uploadAttempts := [],
       stored := some content })
  else
  match env.metric with
  | Except.error e =>
    (Outcome.fault e,
     { metricQueried := true, sentEmails := [], uploadAttempts := [],
       stored := some content })
  | Except.ok m =>
  if m.playerCount = 0 then
    (Outcome.ret ⟨SUCCESS_STATUS_CODE, "There were no players"⟩,
     { metricQueried := true, sentEmails := [], uploadAttempts := [],
       stored := some content })
  else if m.playerCount < cfg.PLAYER_COUNT_THRESHOLD then
    (Outcome.ret ⟨SUCCESS_STATUS_CODE, belowThresholdBody cfg m.playerCount⟩,
     { metricQueried := true, sentEmails := [], uploadAttempts := [],
       stored := some content })
  else
    let new_target_time : Int :=
      env.now + (convert_minutes_to_seconds cfg.THRESHOLD_TIMER_MINUTES : Int)
    match env.uploadResult with
    | Except.error e =>
      let em := handle_error ("Caught exception when uploading. Exception: " ++ e)
      (Outcome.ret em.1,
       { metricQueried := true, sentEmails := [em.2],
         uploadAttempts := [new_target_time], stored := some content })
    | Except.ok _ =>
      match env.sendResult with
      | Except.error e =>
        (Outcome.fault e,
         { metricQueried := true, sentEmails := [],
           uploadAttempts := [new_target_time],
           stored := some (toString new_target_time) })
      | Except.ok _ =>
        (Outcome.ret ⟨SUCCESS_STATUS_CODE, "Email sent successfully"⟩,
         { metricQueried := true,
           sentEmails := [{ kind := EmailKind.thresholdAlert
                            subject := alertSubject cfg
                            message := alertBody cfg m new_target_time }],
           uploadAttempts := [new_target_time],
           stored := some (toString new_target_time) })

/-- Whether a notification is the threshold alert of the notify path. -/
def Email.isAlert (e : Email) : Bool :=
  match e.kind with
  | EmailKind.thresholdAlert => true
  | EmailKind.errorReport => false

/-- Number of threshold alert notifications among the published ones. -/
def alertCount (eff : Effects) : Nat :=
  (eff.sentEmails.filter Email.isAlert).length

/-- The invocation reaches the notify path: no download fault, a stored timer
line parsing to a nonzero target time that `now` has passed, a successful
metric query, and a nonzero player count at or above the threshold. -/
def notify_path (cfg : Config) (env : Env) : Prop :=
  env.readFault = none ∧
  ∃ c t m, env.stored = some c ∧ pythonInt c = some t ∧ t ≠ 0 ∧ t ≤ env.now ∧
    env.metric = Except.ok m ∧ m.playerCount ≠ 0 ∧
    cfg.PLAYER_COUNT_THRESHOLD ≤ m.playerCount

/-- Claim C5: when the timer record does not exist (a not-found condition on
the store read), the engine initializes the timer to now by writing a new
record, returns OK with the initialization message, and does not query the
metric source on this path. -/
theorem first_run_initializes_timer (cfg : Config) (env : Env)
    (hrf : env.readFault = none) (hst : env.stored = none) :
    threshold_mode cfg env =
      (Outcome.ret ⟨SUCCESS_STATUS_CODE, timer_init_body⟩,
       { metricQueried := false, sentEmails := [], uploadAttempts := [env.now],
         stored := some (toString env.now) }) := by
  obtain ⟨n, rf, st, met, up, snd⟩ := env
  dsimp only at hrf hst ⊢
  subst hrf
  subst hst
  rfl

/-- Witness for C5 at a concrete first-run environment. -/
theorem first_run_initializes_timer_witness :
    threshold_mode ⟨5, 30, ("1.2.3.4"), ("TF2 ")⟩
        ⟨50, none, none, Except.error ("x"), Except.ok (), Except.ok ()⟩ =
      (Outcome.ret ⟨SUCCESS_STATUS_CODE, timer_init_body⟩,
       { metricQueried := false, sentEmails := [], uploadAttempts := [50],
         stored := some (toString (50 : Int)) }) :=
  first_run_initializes_timer _ _ rfl rfl

/-- Claim C6: with a valid stored timer whose target time has not yet
passed, the engine returns the not-yet-due OK result and performs no metric
query, no notification send and no timer write. -/
theorem cooldown_active_noop (cfg : Config) (now t : Int) (c : String)
    (met : Except String Metric) (up snd : Except String Unit)
    (hc : pythonInt c = some t) (ht : t ≠ 0) (hlt : now < t) :
    threshold_mode cfg ⟨now, none, some c, met, up, snd⟩ =
      (Outcome.ret ⟨SUCCESS_STATUS_CODE,
         "We haven\x27t passed the target time yet. Don\x27t do anything."⟩,
       { metricQueried := false, sentEmails := [], uploadAttempts := [],
         stored := some c }) := by
  simp [threshold_mode, hc, ht, hlt]

/-- Witness for C6 at a concrete cooldown-active environment. -/
theorem cooldown_active_noop_witness :
    pythonInt ("900") = some 900 ∧ (900 : Int) ≠ 0 ∧ (100 : Int) < 900 ∧
    threshold_mode ⟨5, 30, ("1.2.3.4"), ("TF2 ")⟩
        ⟨100, none, some ("900"), Except.error ("x"), Except.ok (), Except.ok ()⟩ =
      (Outcome.ret ⟨SUCCESS_STATUS_CODE,
         "We haven\x27t passed the target time yet. Don\x27t do anything."⟩,
       { metricQueried := false, sentEmails := [], uploadAttempts := [],
         stored := some ("900") }) :=
  ⟨by decide, by decide, by decide,
    cooldown_active_noop _ _ 900 _ _ _ _ (by decide) (by decide) (by decide)⟩

/-- Claim C7: when the cooldown has elapsed and the queried player count is
below the threshold, the engine returns OK (the no-players message for a
zero count, the below-threshold message otherwise) and performs no timer
write and no notification send. -/
theorem below_threshold_noop (cfg : Config) (now t : Int) (c : String)
    (m : Metric) (up snd : Except String Unit)
    (hc : pythonInt c = some t) (ht : t ≠ 0) (hle : t ≤ now)
    (hlt : m.playerCount < cfg.PLAYER_COUNT_THRESHOLD) :
    threshold_mode cfg ⟨now, none, some c, Except.ok m, up, snd⟩ =
      (Outcome.ret ⟨SUCCESS_STATUS_CODE,
         if m.playerCount = 0 then "There were no players"
         else belowThresholdBody cfg m.playerCount⟩,
       { metricQueried := true, sentEmails := [], uploadAttempts := [],
         stored := some c }) := by
  have hnlt : ¬ now < t := not_lt.mpr hle
  by_cases h0 : m.playerCount = 0 <;>
    simp [threshold_mode, hc, ht, hnlt, h0, hlt]

/-- Witness for C7 at a concrete below-threshold environment. -/
theorem below_threshold_noop_witness :
    pythonInt ("40") = some 40 ∧ (40 : Int) ≠ 0 ∧ (40 : Int) ≤ 100 ∧ 2 < 5 ∧
    threshold_mode ⟨5, 30, ("1.2.3.4"), ("TF2 ")⟩
        ⟨100, none, some ("40"), Except.ok ⟨2, [], ("srv")⟩,
         Except.ok (), Except.ok ()⟩ =
      (Outcome.ret ⟨SUCCESS_STATUS_CODE,
         if (2 : Nat) = 0 then "There were no players"
         else belowThresholdBody ⟨5, 30, ("1.2.3.4"), ("TF2 ")⟩ 2⟩,
       { metricQueried := true, sentEmails := [], uploadAttempts := [],
         stored := some ("40") }) :=
  ⟨by decide, by decide, by decide, by decide,
    below_threshold_noop _ _ 40 _ _ _ _ (by decide) (by decide) (by decide)
      (by decide)⟩

/-- Claim C10: a stored timer line parsing to the integer 0 is rejected as
an empty timer file: ERROR result with the message "Timer file was empty",
an error notification, and no metric query, even when the current time is
at or past 0 (so the timestamp 0 would mean the cooldown has elapsed). -/
theorem zero_timer_rejected_as_empty (cfg : Config) (now : Int) (c : String)
    (met : Except String Metric) (up snd : Except String Unit)
    (hc : pythonInt c = some 0) (_hnow : 0 ≤ now) :
    threshold_mode cfg ⟨now, none, some c, met, up, snd⟩ =
      (Outcome.ret ⟨ERROR_STATUS_CODE, "Timer file was empty"⟩,
       { metricQueried := false,
         sentEmails := [{ kind := EmailKind.errorReport, subject := "Error",
                          message := "Timer file was empty" }],
         uploadAttempts := [], stored := some c }) := by
  simp [threshold_mode, hc, handle_error]

/-- Witness for C10 at the concrete stored line "0". -/
theorem zero_timer_rejected_as_empty_witness :
    pythonInt ("0") = some 0 ∧ (0 : Int) ≤ 100 ∧
    threshold_mode ⟨5, 30, ("1.2.3.4"), ("TF2 ")⟩
        ⟨100, none, some ("0"), Except.ok ⟨9, [], ("srv")⟩,
         Except.ok (), Except.ok ()⟩ =
      (Outcome.ret ⟨ERROR_STATUS_CODE, "Timer file was empty"⟩,
       { metricQueried := false,
         sentEmails := [{ kind := EmailKind.errorReport, subject := "Error",
                          message := "Timer file was empty" }],
         uploadAttempts := [], stored := some ("0") }) :=
  ⟨by decide, by decide,
    zero_timer_rejected_as_empty _ _ _ _ _ _ (by decide) (by decide)⟩

/-- Counterexample to claim C1 as stated: at this concrete notify-path
invocation whose timer-store write fails, the engine returns ERROR but the
threshold notification is NOT delivered (zero threshold alerts are sent),
contrary to the claim that it is still composed and delivered. -/
theorem write_failure_drops_alert_counterexample :
    (threshold_mode ⟨5, 30, ("1.2.3.4"), ("TF2 ")⟩
        ⟨1000, none, some ("900"), Except.ok ⟨7, [], ("srv")⟩,
         Except.error ("AccessDenied"), Except.ok ()⟩).1 =
      Outcome.ret ⟨ERROR_STATUS_CODE,
        "Caught exception when uploading. Exception: AccessDenied"⟩ ∧
    alertCount (threshold_mode ⟨5, 30, ("1.2.3.4"), ("TF2 ")⟩
        ⟨1000, none, some ("900"), Except.ok ⟨7, [], ("srv")⟩,
         Except.error ("AccessDenied"), Except.ok ()⟩).2 = 0 := by
  decide

/-- Claim C1 (amended): on the notify path, when the timer-store write
fails, the engine returns ERROR with a descriptive message and publishes an
error notification, but the threshold notification is NOT sent and the
stored timer is left unchanged. -/
theorem write_failure_reports_error_without_alert (cfg : Config)
    (now t : Int) (c e : String) (m : Metric) (snd : Except String Unit)
    (hc : pythonInt c = some t) (ht : t ≠ 0) (hle : t ≤ now)
    (h0 : m.playerCount ≠ 0)
    (hth : cfg.PLAYER_COUNT_THRESHOLD ≤ m.playerCount) :
    threshold_mode cfg ⟨now, none, some c, Except.ok m, Except.error e, snd⟩ =
      (Outcome.ret ⟨ERROR_STATUS_CODE,
         "Caught exception when uploading. Exception: " ++ e⟩,
       { metricQueried := true,
         sentEmails := [{ kind := EmailKind.errorReport, subject := "Error",
                          message := "Caught exception when uploading. Exception: " ++ e }],
         uploadAttempts := [now + (convert_minutes_to_seconds cfg.THRESHOLD_TIMER_MINUTES : Int)],
         stored := some c }) ∧
    alertCount (threshold_mode cfg
        ⟨now, none, some c, Except.ok m, Except.error e, snd⟩).2 = 0 := by
  have hnlt : ¬ now < t := not_lt.mpr hle
  have hnth : ¬ m.playerCount < cfg.PLAYER_COUNT_THRESHOLD := Nat.not_lt.mpr hth
  constructor
  · simp [threshold_mode, hc, ht, hnlt, h0, hnth, handle_error]
  · simp [threshold_mode, hc, ht, hnlt, h0, hnth, handle_error, alertCount,
      Email.isAlert]

/-- Witness for the amended C1 at a concrete failing write. -/
theorem write_failure_reports_error_without_alert_witness :
    pythonInt ("900") = some 900 ∧ (900 : Int) ≠ 0 ∧ (900 : Int) ≤ 1000 ∧
    (7 : Nat) ≠ 0 ∧ (5 : Nat) ≤ 7 ∧
    (threshold_mode ⟨5, 30, ("1.2.3.4"), ("TF2 ")⟩
        ⟨1000, none, some ("900"), Except.ok ⟨7, [], ("srv")⟩,
         Except.error ("boom"), Except.ok ()⟩ =
      (Outcome.ret ⟨ERROR_STATUS_CODE,
         "Caught exception when uploading. Exception: " ++ ("boom")⟩,
       { metricQueried := true,
         sentEmails := [{ kind := EmailKind.errorReport, subject := "Error",
                          message := "Caught exception when uploading. Exception: " ++ ("boom") }],
         uploadAttempts := [1000 + (convert_minutes_to_seconds 30 : Int)],
         stored := some ("900") }) ∧
     alertCount (threshold_mode ⟨5, 30, ("1.2.3.4"), ("TF2 ")⟩
        ⟨1000, none, some ("900"), Except.ok ⟨7, [], ("srv")⟩,
         Except.error ("boom"), Except.ok ()⟩).2 = 0) :=
  ⟨by decide, by decide, by decide, by decide, by decide,
    write_failure_reports_error_without_alert _ _ 900 _ _ _ _ (by decide)
      (by decide) (by decide) (by decide) (by decide)⟩

/-- Counterexample to claim C2 as stated: at this concrete invocation the
metric-source query fails and the engine does not convert the failure into
an ERROR DecisionResult; the exception escapes as an unhandled fault. -/
theorem metric_query_fault_escapes_counterexample :
    (threshold_mode ⟨5, 30, ("1.2.3.4"), ("TF2 ")⟩
        ⟨200, none, some ("100"), Except.error ("ConnectionError"),
         Except.ok (), Except.ok ()⟩).1 =
      Outcome.fault ("ConnectionError") := by
  decide

/-- Claim C2 (amended): a timer-store read failure is caught and converted
to an ERROR result with an error notification, but a metric-source query
failure is NOT caught: when the cooldown has elapsed and the query fails,
the failure escapes the engine as an unhandled fault. -/
theorem io_failure_policy :
    (∀ (cfg : Config) (env : Env) (e : String), env.readFault = some e →
      threshold_mode cfg env =
        (Outcome.ret ⟨ERROR_STATUS_CODE,
           "Caught exception when downloading timer file from S3. Exception: " ++ e⟩,
         { metricQueried := false,
           sentEmails := [{ kind := EmailKind.errorReport, subject := "Error",
                            message := "Caught exception when downloading timer file from S3. Exception: " ++ e }],
           uploadAttempts := [], stored := env.stored })) ∧
    (∀ (cfg : Config) (now t : Int) (c e : String)
       (up snd : Except String Unit),
      pythonInt c = some t → t ≠ 0 → t ≤ now →
      (threshold_mode cfg ⟨now, none, some c, Except.error e, up, snd⟩).1 =
        Outcome.fault e) := by
  constructor
  · intro cfg env e h
    obtain ⟨n, rf, st, met, up, snd⟩ := env
    dsimp only at h ⊢
    subst h
    rfl
  · intro cfg now t c e up snd hc ht hle
    have hnlt : ¬ now < t := not_lt.mpr hle
    simp [threshold_mode, hc, ht, hnlt]

/-- Witness for the amended C2: a concrete caught read failure and a
concrete escaping metric-query failure. -/
theorem io_failure_policy_witness :
    (threshold_mode ⟨5, 30, ("1.2.3.4"), ("TF2 ")⟩
        ⟨100, some ("Timeout"), some ("40"), Except.ok ⟨9, [], ("srv")⟩,
         Except.ok (), Except.ok ()⟩ =
      (Outcome.ret ⟨ERROR_STATUS_CODE,
         "Caught exception when downloading timer file from S3. Exception: " ++ ("Timeout")⟩,
       { metricQueried := false,
         sentEmails := [{ kind := EmailKind.errorReport, subject := "Error",
                          message := "Caught exception when downloading timer file from S3. Exception: " ++ ("Timeout") }],
         uploadAttempts := [], stored := some ("40") })) ∧
    (threshold_mode ⟨5, 30, ("1.2.3.4"), ("TF2 ")⟩
        ⟨100, none, some ("40"), Except.error ("NoRoute"),
         Except.ok (), Except.ok ()⟩).1 = Outcome.fault ("NoRoute") :=
  ⟨io_failure_policy.1 _ _ ("Timeout") rfl,
    io_failure_policy.2 _ _ 40 _ _ _ _ (by decide) (by decide) (by decide)⟩

/-- Counterexample to claim C3 as stated: at this concrete invocation the
downloaded timer file is empty, yet the engine returns no ERROR result and
sends no error notification: the parse failure escapes as an unhandled
fault (the metric source is indeed not queried). -/
theorem empty_timer_line_counterexample :
    threshold_mode ⟨5, 30, ("1.2.3.4"), ("TF2 ")⟩
        ⟨100, none, some (""), Except.ok ⟨9, [], ("srv")⟩,
         Except.ok (), Except.ok ()⟩ =
      (Outcome.fault ("ValueError: invalid literal for int() with base 10: "),
       { metricQueried := false, sentEmails := [], uploadAttempts := [],
         stored := some ("") }) := by
  decide

/-- Claim C3 (amended): when the downloaded timer line is empty or not a
valid integer, the parse raises an uncaught ValueError that escapes the
engine as an unhandled fault — no ERROR result, no error notification —
and the metric source is not queried; an ERROR result with an error
notification is produced only when the line parses to the integer 0. -/
theorem invalid_timer_line_faults (cfg : Config) (now : Int) (c : String)
    (met : Except String Metric) (up snd : Except String Unit)
    (hc : pythonInt c = none) :
    threshold_mode cfg ⟨now, none, some c, met, up, snd⟩ =
      (Outcome.fault ("ValueError: invalid literal for int() with base 10: " ++ c),
       { metricQueried := false, sentEmails := [], uploadAttempts := [],
         stored := some c }) := by
  simp [threshold_mode, hc]

/-- Witness for the amended C3 at the concrete stored line "tomorrow". -/
theorem invalid_timer_line_faults_witness :
    pythonInt ("tomorrow") = none ∧
    threshold_mode ⟨5, 30, ("1.2.3.4"), ("TF2 ")⟩
        ⟨100, none, some ("tomorrow"), Except.ok ⟨9, [], ("srv")⟩,
         Except.ok (), Except.ok ()⟩ =
      (Outcome.fault ("ValueError: invalid literal for int() with base 10: " ++ ("tomorrow")),
       { metricQueried := false, sentEmails := [], uploadAttempts := [],
         stored := some ("tomorrow") }) :=
  ⟨by decide,
    invalid_timer_line_faults _ _ _ _ _ _ (by decide)⟩

/-- Counterexample to claim C4 as stated: at this concrete invocation with
player count at the threshold and the cooldown elapsed, the timer-store
write fails, the stored timer is NOT updated to now + cooldown seconds and
no threshold notification is sent, contrary to the claim that every such
invocation updates the timer and sends exactly one notification. -/
theorem notify_path_write_failure_counterexample :
    (threshold_mode ⟨3, 10, ("9.9.9.9"), ("TF2 ")⟩
        ⟨60, none, some ("50"), Except.ok ⟨4, [], ("srv2")⟩,
         Except.error ("S3Error"), Except.ok ()⟩).2.stored = some ("50") ∧
    alertCount (threshold_mode ⟨3, 10, ("9.9.9.9"), ("TF2 ")⟩
        ⟨60, none, some ("50"), Except.ok ⟨4, [], ("srv2")⟩,
         Except.error ("S3Error"), Except.ok ()⟩).2 = 0 := by
  decide

/-- Claim C4 (amended): on the notify path the value written is now +
cooldown seconds (cooldown minutes times 60); when the write and the
delivery succeed the stored timer is updated to it and exactly one
threshold notification is sent, while a failed write leaves the stored
timer unchanged and sends no threshold notification; the result is the OK
"Email sent successfully" iff both the write and the send succeeded. -/
theorem notify_path_outcome (cfg : Config) (now t : Int) (c : String)
    (m : Metric) (up snd : Except String Unit)
    (hc : pythonInt c = some t) (ht : t ≠ 0) (hle : t ≤ now)
    (h0 : m.playerCount ≠ 0)
    (hth : cfg.PLAYER_COUNT_THRESHOLD ≤ m.playerCount) :
    ((threshold_mode cfg ⟨now, none, some c, Except.ok m, up, snd⟩).1 =
        Outcome.ret ⟨SUCCESS_STATUS_CODE, "Email sent successfully"⟩ ↔
      up = Except.ok () ∧ snd = Except.ok ()) ∧
    (up = Except.ok () ∧ snd = Except.ok () →
      (threshold_mode cfg ⟨now, none, some c, Except.ok m, up, snd⟩).2.stored =
        some (toString (now + (convert_minutes_to_seconds cfg.THRESHOLD_TIMER_MINUTES : Int))) ∧
      alertCount (threshold_mode cfg ⟨now, none, some c, Except.ok m, up, snd⟩).2 = 1) ∧
    (∀ e, up = Except.error e →
      (threshold_mode cfg ⟨now, none, some c, Except.ok m, up, snd⟩).2.stored = some c ∧
      alertCount (threshold_mode cfg ⟨now, none, some c, Except.ok m, up, snd⟩).2 = 0) := by
  have hnlt : ¬ now < t := not_lt.mpr hle
  have hnth : ¬ m.playerCount < cfg.PLAYER_COUNT_THRESHOLD := Nat.not_lt.mpr hth
  cases up with
  | ok u =>
    cases u
    cases snd with
    | ok v =>
      cases v
      refine ⟨?_, ?_, ?_⟩ <;>
        simp [threshold_mode, hc, ht, hnlt, h0, hnth, alertCount, Email.isAlert]
    | error e =>
      refine ⟨?_, ?_, ?_⟩ <;>
        simp [threshold_mode, hc, ht, hnlt, h0, hnth, alertCount, Email.isAlert]
  | error e =>
    refine ⟨?_, ?_, ?_⟩ <;>
      simp [threshold_mode, hc, ht, hnlt, h0, hnth, alertCount, Email.isAlert,
        handle_error, ERROR_STATUS_CODE, SUCCESS_STATUS_CODE]

/-- Witness for the amended C4 at a concrete successful notify path. -/
theorem notify_path_outcome_witness :
    pythonInt ("50") = some 50 ∧ (50 : Int) ≠ 0 ∧ (50 : Int) ≤ 60 ∧
    (4 : Nat) ≠ 0 ∧ (3 : Nat) ≤ 4 ∧
    (((threshold_mode ⟨3, 10, ("9.9.9.9"), ("TF2 ")⟩
        ⟨60, none, some ("50"), Except.ok ⟨4, [], ("srv2")⟩,
         Except.ok (), Except.ok ()⟩).1 =
        Outcome.ret ⟨SUCCESS_STATUS_CODE, "Email sent successfully"⟩ ↔
      (Except.ok () : Except String Unit) = Except.ok () ∧
      (Except.ok () : Except String Unit) = Except.ok ()) ∧
    ((Except.ok () : Except String Unit) = Except.ok () ∧
     (Except.ok () : Except String Unit) = Except.ok () →
      (threshold_mode ⟨3, 10, ("9.9.9.9"), ("TF2 ")⟩
        ⟨60, none, some ("50"), Except.ok ⟨4, [], ("srv2")⟩,
         Except.ok (), Except.ok ()⟩).2.stored =
        some (toString ((60 : Int) + (convert_minutes_to_seconds 10 : Int))) ∧
      alertCount (threshold_mode ⟨3, 10, ("9.9.9.9"), ("TF2 ")⟩
        ⟨60, none, some ("50"), Except.ok ⟨4, [], ("srv2")⟩,
         Except.ok (), Except.ok ()⟩).2 = 1) ∧
    (∀ e, (Except.ok () : Except String Unit) = Except.error e →
      (threshold_mode ⟨3, 10, ("9.9.9.9"), ("TF2 ")⟩
        ⟨60, none, some ("50"), Except.ok ⟨4, [], ("srv2")⟩,
         Except.ok (), Except.ok ()⟩).2.stored = some ("50") ∧
      alertCount (threshold_mode ⟨3, 10, ("9.9.9.9"), ("TF2 ")⟩
        ⟨60, none, some ("50"), Except.ok ⟨4, [], ("srv2")⟩,
         Except.ok (), Except.ok ()⟩).2 = 0)) :=
  ⟨by decide, by decide, by decide, by decide, by decide,
    notify_path_outcome _ _ 50 _ _ _ _ (by decide) (by decide) (by decide)
      (by decide) (by decide)⟩

/-- Claim C8: on the notify path with a successful write and delivery, the
single notification sent carries the player count, the server label, the
server address and the human-readable timestamp of the next eligible check
in its message, and the returned result is status code 200 with body
"Email sent successfully". -/
theorem alert_content_and_result (cfg : Config) (now t : Int) (c : String)
    (m : Metric)
    (hc : pythonInt c = some t) (ht : t ≠ 0) (hle : t ≤ now)
    (h0 : m.playerCount ≠ 0)
    (hth : cfg.PLAYER_COUNT_THRESHOLD ≤ m.playerCount) :
    threshold_mode cfg ⟨now, none, some c, Except.ok m, Except.ok (), Except.ok ()⟩ =
      (Outcome.ret ⟨200, "Email sent successfully"⟩,
       { metricQueried := true,
         sentEmails := [{ kind := EmailKind.thresholdAlert
                          subject := cfg.emailSubjectPre ++ "Player count has reached the threshold"
                          message := "Players count is " ++ toString m.playerCount ++
                            " in server: " ++ m.serverName ++ ", IP: " ++
                            cfg.SERVER_IP ++
                            ". The next check will happen after " ++
                            current_time_human_readable (now +
                              (convert_minutes_to_seconds cfg.THRESHOLD_TIMER_MINUTES : Int)) ++
                            "\n" }],
         uploadAttempts := [now + (convert_minutes_to_seconds cfg.THRESHOLD_TIMER_MINUTES : Int)],
         stored := some (toString (now +
           (convert_minutes_to_seconds cfg.THRESHOLD_TIMER_MINUTES : Int))) }) := by
  have hnlt : ¬ now < t := not_lt.mpr hle
  have hnth : ¬ m.playerCount < cfg.PLAYER_COUNT_THRESHOLD := Nat.not_lt.mpr hth
  simp [threshold_mode, hc, ht, hnlt, h0, hnth, alertSubject, alertBody,
    SUCCESS_STATUS_CODE]

/-- Witness for C8 at the spec scenario: threshold 5, cooldown 30 minutes,
player count 7. -/
theorem alert_content_and_result_witness :
    pythonInt ("900") = some 900 ∧ (900 : Int) ≠ 0 ∧ (900 : Int) ≤ 1000 ∧
    (7 : Nat) ≠ 0 ∧ (5 : Nat) ≤ 7 ∧
    threshold_mode ⟨5, 30, ("1.2.3.4"), ("TF2 ")⟩
        ⟨1000, none, some ("900"), Except.ok ⟨7, [], ("srv")⟩,
         Except.ok (), Except.ok ()⟩ =
      (Outcome.ret ⟨200, "Email sent successfully"⟩,
       { metricQueried := true,
         sentEmails := [{ kind := EmailKind.thresholdAlert
                          subject := ("TF2 ") ++ "Player count has reached the threshold"
                          message := "Players count is " ++ toString (7 : Nat) ++
                            " in server: " ++ ("srv") ++ ", IP: " ++ ("1.2.3.4") ++
                            ". The next check will happen after " ++
                            current_time_human_readable ((1000 : Int) +
                              (convert_minutes_to_seconds 30 : Int)) ++ "\n" }],
         uploadAttempts := [(1000 : Int) + (convert_minutes_to_seconds 30 : Int)],
         stored := some (toString ((1000 : Int) +
           (convert_minutes_to_seconds 30 : Int))) }) :=
  ⟨by decide, by decide, by decide, by decide, by decide,
    alert_content_and_result _ _ 900 _ _ (by decide) (by decide) (by decide)
      (by decide) (by decide)⟩

/-- Claim C9: the stored timer value changes only in two ways: on first run
(no download fault, record absent) it is initialized to now, and on the
notify path with a successful write it becomes now + cooldown seconds —
the only transition that can store a strictly future value; every other
path leaves the stored value unchanged. -/
theorem stored_timer_transition (cfg : Config) (env : Env) :
    (threshold_mode cfg env).2.stored = env.stored ∨
    (env.readFault = none ∧ env.stored = none ∧
      (threshold_mode cfg env).2.stored = some (toString env.now)) ∨
    (notify_path cfg env ∧ env.uploadResult = Except.ok () ∧
      (threshold_mode cfg env).2.stored =
        some (toString (env.now +
          (convert_minutes_to_seconds cfg.THRESHOLD_TIMER_MINUTES : Int)))) := by
  obtain ⟨now, rf, st, met, up, snd⟩ := env
  cases rf with
  | some e => left; rfl
  | none =>
  cases st with
  | none => right; left; exact ⟨rfl, rfl, rfl⟩
  | some c =>
  cases hp : pythonInt c with
  | none => left; simp [threshold_mode, hp]
  | some t =>
  by_cases ht : t = 0
  · left; simp [threshold_mode, hp, ht]
  · by_cases hlt : now < t
    · left; simp [threshold_mode, hp, ht, hlt]
    · cases met with
      | error e => left; simp [threshold_mode, hp, ht, hlt]
      | ok m =>
        by_cases h0 : m.playerCount = 0
        · left; simp [threshold_mode, hp, ht, hlt, h0]
        · by_cases hth : m.playerCount < cfg.PLAYER_COUNT_THRESHOLD
          · left; simp [threshold_mode, hp, ht, hlt, h0, hth]
          · cases up with
            | error e => left; simp [threshold_mode, hp, ht, hlt, h0, hth]
            | ok u =>
              cases u
              right; right
              refine ⟨⟨rfl, c, t, m, rfl, hp, ht, not_lt.mp hlt, rfl, h0,
                Nat.not_lt.mp hth⟩, rfl, ?_⟩
              cases snd with
              | error e => simp [threshold_mode, hp, ht, hlt, h0, hth]
              | ok v => simp [threshold_mode, hp, ht, hlt, h0, hth]

example : pythonInt ("900") = some 900 := by decide

example : pythonInt ("") = none := by decide

example : pythonInt ("-5") = some (-5) := by decide

example : pythonInt ("abc") = none := by decide

example : pythonInt ("0") = some 0 := by decide

end TF2
